import Mathlib

set_option maxRecDepth 4000

/-!
Verification development for the scriptflow-backend service.

The TypeScript source is shallowly embedded: each handler or service
function becomes a pure Lean function over explicit state.  MongoDB
collections are association lists keyed the way the code queries them;
`findOne` is `List.find?`; `findOneAndUpdate` with `upsert` is an explicit
upsert on the list.  SHA-256 (used only as an opaque deterministic key) is
modelled as an injective encoding of its input string.  External
capabilities (yt-dlp, ffmpeg, Gemini, axios) are modelled by an
environment record stating the outcome each call would produce.
-/

/-- Job lifecycle states stored in the Job collection (src/db Job model,
used by part_016 and part_014). -/
inductive JobStatus
  | queued
  | processing
  | completed
  | failed
deriving DecidableEq, Repr

/-- One row of the Job collection.  Fields mirror the document written by
`generateScriptHandler` (part_016 lines 70-78) and mutated by `processJob`
(part_014).  Timestamps are not modelled. -/
structure JobRow where
  jobId : String
  subscriberId : String
  status : JobStatus
  reelUrl : String
  userIdea : String
  requestHash : String
  attempts : Nat
  error : Option String
deriving DecidableEq, Repr

/-- Structured analysis result (src/src/services/videoAnalyzer.ts
`VideoAnalysis`). -/
structure VideoAnalysis where
  transcript : Option String
  visualCues : List String
  hookType : String
  tone : String
  sceneDescriptions : List String
deriving DecidableEq, Repr

/-- One row of the Script collection as written by `processJob`
(part_014 lines 229-244).  Timing/model-version metadata is not modelled. -/
structure ScriptRow where
  requestHash : String
  publicId : String
  manychatUserId : String
  reelUrl : String
  userIdea : String
  scriptText : String
  imageUrl : Option String
  scriptUrl : String
deriving DecidableEq, Repr

/-- One row of the ReelDNA (Tier-1 analysis cache) collection as created by
`processJob` (part_014 lines 160-164). -/
structure ReelDNARow where
  reelUrlHash : String
  reelUrl : String
  analysis : VideoAnalysis
deriving DecidableEq, Repr

/-- The MongoDB state visible to the intake handler and the worker. -/
structure Db where
  scripts : List ScriptRow
  jobs : List JobRow
  reelDNA : List ReelDNARow
deriving DecidableEq, Repr

/-- Script.findOne by requestHash (part_016 line 43, part_012 upsert key). -/
def findScriptByHash (db : Db) (h : String) : Option ScriptRow :=
  db.scripts.find? (fun s => s.requestHash == h)

/-- Script.findOne by publicId (viewScript.ts line 66 and
`generateUniquePublicId` line 26). -/
def findScriptByPublicId (db : Db) (pid : String) : Option ScriptRow :=
  db.scripts.find? (fun s => s.publicId == pid)

/-- Job.findOne for an in-flight job: requestHash matches and status is
queued or processing (part_016 lines 55-58). -/
def findInflightJob (db : Db) (h : String) : Option JobRow :=
  db.jobs.find? (fun j =>
    j.requestHash == h && (j.status == JobStatus.queued || j.status == JobStatus.processing))

/-- Job.findOneAndUpdate keyed by jobId (no upsert): every row whose jobId
matches is rewritten by `f`. -/
def updateJob (db : Db) (jobId : String) (f : JobRow → JobRow) : Db :=
  { db with jobs := db.jobs.map (fun j => if j.jobId == jobId then f j else j) }

/-- Script.findOneAndUpdate with upsert keyed by requestHash (part_014
lines 229-244): replace the matching row, or append when absent. -/
def upsertScript (db : Db) (row : ScriptRow) : Db :=
  if (findScriptByHash db row.requestHash).isSome then
    { db with scripts := db.scripts.map (fun s => if s.requestHash == row.requestHash then row else s) }
  else
    { db with scripts := db.scripts ++ [row] }

/-- SHA-256 modelled as an injective deterministic encoding of its input
string; only determinism and key identity matter to the claims. -/
def sha256Hex (s : String) : String :=
  ("sha256:") ++ s

/-- utils/hash `generateRequestHash` (part_018): sha256 hex digest of
subscriber-url-idea joined with dashes. -/
def generateRequestHash (manychatUserId reelUrl userIdea : String) : String :=
  sha256Hex (manychatUserId ++ ("-") ++ reelUrl ++ ("-") ++ userIdea)

/-- Whether the second character list is a leading segment of the first. -/
def charsBeginWith : List Char → List Char → Bool
  | _, [] => true
  | [], _ :: _ => false
  | c :: cs, p :: ps => c == p && charsBeginWith cs ps

/-- Whether the second character list occurs inside the first. -/
def charsContain : List Char → List Char → Bool
  | _, [] => true
  | [], _ :: _ => false
  | c :: cs, p :: ps => charsBeginWith (c :: cs) (p :: ps) || charsContain cs (p :: ps)

/-- JavaScript String.startsWith. -/
def strBeginsWith (s pat : String) : Bool :=
  charsBeginWith s.data pat.data

/-- JavaScript String.includes. -/
def strContains (s pat : String) : Bool :=
  charsContain s.data pat.data

/-- Modelled from the spec: `utils/hash.normalizeInstagramUrl` is imported by
part_014 but the function body is not under src/.  The spec (section 4.3)
says normalization strips tracking parameters and aliases equivalent URLs;
modelled as dropping the query string (everything from the first question
mark on). -/
def normalizeInstagramUrl (url : String) : String :=
  String.mk (url.data.takeWhile (fun c => c != Char.ofNat 63))

/-- Modelled from the spec: `utils/hash.generateReelHash` is imported by
part_014 but the function body is not under src/.  The spec (sections 3 and
4.3) says the Tier-1 cache key is a stable hash of the normalized source
reference alone; the part_014 call site passes only `reelUrl`. -/
def generateReelHash (reelUrl : String) : String :=
  sha256Hex (normalizeInstagramUrl reelUrl)

/-! ## Rate limiter (part_021) -/

/-- Fixed window length in milliseconds (part_021 line 24). -/
def WINDOW_MS : Nat := 15 * 60 * 1000

/-- Maximum requests per window (part_021 line 25). -/
def MAX_REQUESTS : Nat := 100

/-- One row of the RateLimit collection. -/
structure RateLimitRecord where
  ip : String
  count : Nat
  windowStart : Nat
deriving DecidableEq, Repr

/-- Decision taken by the middleware: forward to the next handler, or end
the request with an error status. -/
inductive RLOutcome
  | nextCalled
  | rejected (status : Nat)
deriving DecidableEq, Repr

/-- RateLimit.findOne by ip. -/
def rlFind (store : List RateLimitRecord) (ip : String) : Option RateLimitRecord :=
  store.find? (fun r => r.ip == ip)

/-- RateLimit.create / record.save: replace the row for this ip, or append
when absent. -/
def rlPut (store : List RateLimitRecord) (r : RateLimitRecord) : List RateLimitRecord :=
  if (rlFind store r.ip).isSome then
    store.map (fun x => if x.ip == r.ip then r else x)
  else
    store ++ [r]

/-- The `rateLimiter` middleware (part_021 lines 27-82).  `storeFails`
models any thrown backing-store error (the catch block calls next(): fail
open).  Times are epoch milliseconds as naturals. -/
def rateLimiter (storeFails : Bool) (store : List RateLimitRecord) (ip : String) (now : Nat) :
    RLOutcome × List RateLimitRecord :=
  if storeFails then
    (RLOutcome.nextCalled, store)
  else
    match rlFind store ip with
    | none =>
        (RLOutcome.nextCalled, rlPut store { ip := ip, count := 1, windowStart := now })
    | some record =>
        if WINDOW_MS < now - record.windowStart then
          (RLOutcome.nextCalled, rlPut store { ip := ip, count := 1, windowStart := now })
        else if MAX_REQUESTS ≤ record.count then
          (RLOutcome.rejected 429, store)
        else
          (RLOutcome.nextCalled, rlPut store { record with count := record.count + 1 })

/-- Express middleware chaining: the downstream gate runs exactly when the
limiter called next(). -/
def rateLimitedEndpoint {α : Type} (storeFails : Bool) (store : List RateLimitRecord)
    (ip : String) (now : Nat) (gate : Unit → α) : Option α × List RateLimitRecord :=
  match rateLimiter storeFails store ip now with
  | (RLOutcome.nextCalled, s) => (some (gate ()), s)
  | (RLOutcome.rejected _, s) => (none, s)

/-- A sequence of requests from one caller, threading the store. -/
def rlRequests (store : List RateLimitRecord) (ip : String) :
    List Nat → List RLOutcome × List RateLimitRecord
  | [] => ([], store)
  | t :: rest =>
      let step := rateLimiter false store ip t
      let tail := rlRequests step.snd ip rest
      (step.fst :: tail.fst, tail.snd)

/-! ## Public link service (src/src/api/viewScript.ts) -/

/-- Character class of the serving-route guard regex `[A-Za-z0-9_-]`. -/
def isBase64UrlChar (c : Char) : Bool :=
  ((Char.ofNat 65 ≤ c) && (c ≤ Char.ofNat 90)) ||
  ((Char.ofNat 97 ≤ c) && (c ≤ Char.ofNat 122)) ||
  ((Char.ofNat 48 ≤ c) && (c ≤ Char.ofNat 57)) ||
  (c == Char.ofNat 45) || (c == Char.ofNat 95)

/-- The guard in `viewScriptHandler` (viewScript.ts line 62): publicId is
truthy and matches the anchored pattern of 6 to 12 base64url characters. -/
def publicIdFormatOk (s : String) : Bool :=
  (6 ≤ s.length && s.length ≤ 12) && s.data.all isBase64UrlChar

/-- Body of an HTML response produced by the view route: either the error
page with its message, or the script page with its escaped contents. -/
inductive PageKind
  | errorPage (message : String)
  | scriptPage (scriptText : String) (userIdea : String)
deriving DecidableEq, Repr

/-- Observable response of `viewScriptHandler`, plus whether a store lookup
was performed before responding. -/
structure ViewResponse where
  status : Nat
  page : PageKind
  lookupPerformed : Bool
deriving DecidableEq, Repr

/-- GET /s/:publicId (viewScript.ts lines 57-85): reject malformed ids with
400 before any lookup; look up well-formed ids and answer 404 when absent,
200 with the script page when present. -/
def viewScriptHandler (db : Db) (publicId : String) : ViewResponse :=
  if !(publicIdFormatOk publicId) then
    { status := 400, page := PageKind.errorPage ("Invalid script link"), lookupPerformed := false }
  else
    match findScriptByPublicId db publicId with
    | none =>
        { status := 404, page := PageKind.errorPage ("Script not found or expired"),
          lookupPerformed := true }
    | some s =>
        { status := 200, page := PageKind.scriptPage s.scriptText s.userIdea,
          lookupPerformed := true }

/-- The base64url digit alphabet indexed 0-63 (A-Z, a-z, 0-9, minus,
underscore), as used by Buffer.toString with the base64url encoding. -/
def base64UrlDigit (n : Nat) : Char :=
  if n < 26 then Char.ofNat (65 + n)
  else if n < 52 then Char.ofNat (97 + (n - 26))
  else if n < 62 then Char.ofNat (48 + (n - 52))
  else if n = 62 then Char.ofNat 45
  else Char.ofNat 95

/-- One 3-byte group producing 4 base64url digits. -/
def b64Group (b0 b1 b2 : Nat) : List Char :=
  let n := (b0 % 256) * 65536 + (b1 % 256) * 256 + (b2 % 256)
  [base64UrlDigit (n / 262144 % 64), base64UrlDigit (n / 4096 % 64),
   base64UrlDigit (n / 64 % 64), base64UrlDigit (n % 64)]

/-- Unpadded base64url encoding of a byte list, as produced by Node's
Buffer.toString for the base64url encoding: 4 digits per 3-byte group, 3
digits for 2 leftover bytes, 2 digits for 1 leftover byte. -/
def base64UrlEncode : List Nat → List Char
  | b0 :: b1 :: b2 :: rest => b64Group b0 b1 b2 ++ base64UrlEncode rest
  | [b0, b1] =>
      let n := (b0 % 256) * 1024 + (b1 % 256) * 4
      [base64UrlDigit (n / 4096 % 64), base64UrlDigit (n / 64 % 64), base64UrlDigit (n % 64)]
  | [b0] =>
      let n := (b0 % 256) * 16
      [base64UrlDigit (n / 64 % 64), base64UrlDigit (n % 64)]
  | [] => []

/-- `generatePublicId` (viewScript.ts lines 11-15): base64url encoding of 6
random bytes; the entropy draw is an explicit argument. -/
def generatePublicId (randomBytes : List Nat) : String :=
  String.mk (base64UrlEncode randomBytes)

/-- Entropy consumed by `generateUniquePublicId`: the three candidate
6-byte draws and the 9-byte fallback draw. -/
structure Entropy where
  draw0 : List Nat
  draw1 : List Nat
  draw2 : List Nat
  fallbackDraw : List Nat
deriving DecidableEq, Repr

/-- `generateUniquePublicId` (viewScript.ts lines 21-36): up to 3 draws of
an 8-character id, each checked for absence in the Script collection; after
3 collisions, a longer 12-character id from 9 bytes, issued unchecked.  The
bounded for-loop is unrolled. -/
def generateUniquePublicId (db : Db) (e : Entropy) : String :=
  let c0 := generatePublicId e.draw0
  if (findScriptByPublicId db c0).isNone then c0
  else
    let c1 := generatePublicId e.draw1
    if (findScriptByPublicId db c1).isNone then c1
    else
      let c2 := generatePublicId e.draw2
      if (findScriptByPublicId db c2).isNone then c2
      else generatePublicId e.fallbackDraw

/-- Public base URL; config.BASE_URL with the localhost fallback, modelled
as a fixed value (its content is irrelevant to every claim). -/
def BASE_URL : String := "http://localhost:3000"

/-- `buildScriptUrl` (viewScript.ts lines 42-45). -/
def buildScriptUrl (publicId : String) : String :=
  BASE_URL ++ ("/s/") ++ publicId

/-! ## Intake gate (part_016 `generateScriptHandler`) -/

/-- Request body of the submission endpoint. -/
structure Submission where
  subscriber_id : String
  reel_url : String
  user_idea : String
deriving DecidableEq, Repr

/-- zod `scriptGenerationSchema` (src/src/validators/requestValidator.ts):
non-empty subscriber id, an http(s) URL containing the Instagram reel path
marker, and an idea of at least 4 characters.  z.string().url() is modelled
as a scheme check. -/
def scriptGenerationSchemaCheck (b : Submission) : Bool :=
  (1 ≤ b.subscriber_id.length) &&
  ((strBeginsWith b.reel_url ("http://") || strBeginsWith b.reel_url ("https://")) &&
    strContains b.reel_url ("instagram.com/reel")) &&
  (4 ≤ b.user_idea.length)

/-- Work item placed on the BullMQ queue by `addScriptJob`
(part_016 lines 81-87). -/
structure QueueItem where
  requestId : String
  requestHash : String
  subscriberId : String
  reelUrl : String
  userIdea : String
deriving DecidableEq, Repr

/-- JavaScript `x || null` on an optional string field: empty string and
absence both collapse to null. -/
def jsOrNull (s : Option String) : Option String :=
  match s with
  | some t => if t = ("") then none else some t
  | none => none

/-- Observable JSON responses of the intake handler. -/
inductive IntakeResponse
  | invalidInput
  | cachedResult (script : String) (imageUrl : Option String)
  | alreadyProcessing (jobId : String)
  | queuedAck (jobId : String)
deriving DecidableEq, Repr

/-- Result of one intake call: the response, the database afterwards, and
the queue items enqueued by the call. -/
structure IntakeResult where
  response : IntakeResponse
  db : Db
  enqueued : List QueueItem
deriving DecidableEq, Repr

/-- `generateScriptHandler` (part_016 lines 24-107): validate, compute the
fingerprint, fast idempotency check against Script, in-flight check against
Job, then create a queued Job row and enqueue a work item. -/
def generateScriptHandler (requestId : String) (db : Db) (body : Submission) : IntakeResult :=
  if !(scriptGenerationSchemaCheck body) then
    { response := IntakeResponse.invalidInput, db := db, enqueued := [] }
  else
    let requestHash := generateRequestHash body.subscriber_id body.reel_url body.user_idea
    match findScriptByHash db requestHash with
    | some cachedScript =>
        { response := IntakeResponse.cachedResult cachedScript.scriptText (jsOrNull cachedScript.imageUrl),
          db := db, enqueued := [] }
    | none =>
        match findInflightJob db requestHash with
        | some existingJob =>
            { response := IntakeResponse.alreadyProcessing existingJob.jobId,
              db := db, enqueued := [] }
        | none =>
            let newJob : JobRow :=
              { jobId := requestId, subscriberId := body.subscriber_id,
                status := JobStatus.queued, reelUrl := body.reel_url,
                userIdea := body.user_idea, requestHash := requestHash,
                attempts := 0, error := none }
            { response := IntakeResponse.queuedAck requestId,
              db := { db with jobs := db.jobs ++ [newJob] },
              enqueued := [{ requestId := requestId, requestHash := requestHash,
                             subscriberId := body.subscriber_id, reelUrl := body.reel_url,
                             userIdea := body.user_idea }] }

/-! ## Notification dispatcher (part_007 `sendToManyChat`) -/

/-- Payload of `sendToManyChat` (part_007 `ManyChatPayload`). -/
structure ManyChatPayload where
  subscriber_id : String
  field_name : String
  field_value : String
  scriptUrl : Option String
deriving DecidableEq, Repr

/-- Outcomes the ManyChat HTTP environment would produce for each call the
dispatcher can make: key presence, subscriber-id parseability, and the
success of the three axios posts. -/
structure ManyChatEnv where
  hasApiKey : Bool
  subscriberNumeric : Bool
  setFieldOk : Bool
  sendImageOk : Bool
  sendLinkOk : Bool
deriving DecidableEq, Repr

/-- `sendToManyChat` (part_007 lines 69-182).  Returns the value seen by
the caller together with the error messages logged on the way.  The early
returns, the per-call inner catches and the outer catch of the source are
explicit; the outer catch converts any escaping error into a plain return,
which is why the first component can only ever be `Except.ok`. -/
def sendToManyChat (env : ManyChatEnv) (p : ManyChatPayload) :
    Except String Unit × List String :=
  if !env.hasApiKey then (Except.ok (), [("no api key: skipped")])
  else if !env.subscriberNumeric then (Except.ok (), [("invalid subscriber_id")])
  else
    -- try block: setCustomField throws out of the try on failure
    let tryBlock : Except String Unit × List String :=
      if !env.setFieldOk then (Except.error ("setCustomField failed"), [])
      else
        -- image send has its own catch (log but do not fail the operation)
        let imageLog : List String :=
          if p.field_name == ("script_image_url") && !env.sendImageOk then
            [("Failed to send image")]
          else []
        -- copy-link send has its own catch as well
        let linkLog : List String :=
          if p.field_name == ("script_image_url") && p.scriptUrl.isSome && !env.sendLinkOk then
            [("Failed to send copy link (non-critical)")]
          else []
        (Except.ok (), imageLog ++ linkLog)
    match tryBlock with
    | (Except.ok u, logs) => (Except.ok u, logs)
    | (Except.error msg, logs) =>
        -- outer catch: log only, never rethrow to the caller
        (Except.ok (), logs ++ [msg])

/-! ## Pipeline worker (part_014 `processJob`) -/

/-- Error classes the pipeline steps can raise, with the thrown message. -/
inductive PipelineErr
  | acquisition (msg : String)
  | noAnalysisInput
  | analysis (msg : String)
  | generation (msg : String)
  | render (msg : String)
deriving DecidableEq, Repr

/-- The message carried by a pipeline error (what Job.error records). -/
def errMessage : PipelineErr → String
  | PipelineErr.acquisition msg => msg
  | PipelineErr.noAnalysisInput => "No input provided for analysis (frames or audio)"
  | PipelineErr.analysis msg => msg
  | PipelineErr.generation msg => msg
  | PipelineErr.render msg => msg

/-- Outcomes of the external capabilities for one worker attempt.
`frames` models `extractFrames` — its body is not under src/; per the spec
(section 4.2 step 3) extraction failure is tolerated and surfaces as an
empty frame list.  `audio` and `audioRetry` are the results of the first
and (frames-empty branch) second `extractAudio` call, which resolves null
on failure (src/src/services/audioExtractor.ts).  `raceDNA` is a cache row
a concurrently racing worker commits between this worker's cache probe and
its cache store. -/
structure PipelineEnv where
  download : Except PipelineErr String
  frames : List String
  audio : Option String
  audioRetry : Option String
  analyze : Except PipelineErr VideoAnalysis
  raceDNA : Option ReelDNARow
  generate : Except PipelineErr String
  renderImage : Except PipelineErr String
  entropy : Entropy
  manychat : ManyChatEnv
deriving Repr

/-- `analyzeVideo` input validation (videoAnalyzer.ts lines 107-110): with
no frames and no audio it throws before contacting any model; otherwise the
model-hierarchy outcome from the environment is returned. -/
def analyzeVideo (env : PipelineEnv) (frames : List String) (audioPath : Option String) :
    Except PipelineErr VideoAnalysis :=
  if frames.isEmpty && audioPath.isNone then Except.error PipelineErr.noAnalysisInput
  else env.analyze

/-- Arguments of one `analyzeVideo` call made by the worker, recording what
the analysis capability was given. -/
structure AnalyzeCall where
  frames : List String
  audioPath : Option String
  includeAudio : Bool
deriving DecidableEq, Repr

/-- External-call trace of one worker attempt. -/
structure TraceData where
  downloadCalled : Bool
  analyzeCalls : List AnalyzeCall
  usedTier1Cache : Bool
deriving DecidableEq, Repr

/-- Data carried out of the acquisition/extraction/analysis phase. -/
structure CoreSuccess where
  db : Db
  analysis : VideoAnalysis
  transcript : Option String
  frames : List String
deriving DecidableEq, Repr

/-- The Tier-1 cache store step (part_014 lines 157-172): `ReelDNA.create`
is create-if-absent; a duplicate key (driver error 11000, raised here when
a racing worker already committed the key) is caught and swallowed. -/
def storeReelDNA (env : PipelineEnv) (reelUrl : String) (db : Db) (va : VideoAnalysis) : Db :=
  let reelHash := generateReelHash reelUrl
  let db1 :=
    match env.raceDNA with
    | some row => { db with reelDNA := db.reelDNA ++ [row] }
    | none => db
  if db1.reelDNA.any (fun r => r.reelUrlHash == reelHash) then
    db1   -- duplicate-key write: error 11000 swallowed by the catch
  else
    { db1 with reelDNA := db1.reelDNA ++ [{ reelUrlHash := reelHash, reelUrl := reelUrl, analysis := va }] }

/-- Steps 1-5 of the worker state machine (part_014 lines 74-173): Tier-1
cache probe, media acquisition, feature extraction per analysis mode,
content analysis, cache store.  Returns the external-call trace and either
the analysis data or the thrown error. -/
def acquireAndAnalyze (mode : String) (env : PipelineEnv) (jobData : QueueItem) (db : Db) :
    TraceData × Except PipelineErr CoreSuccess :=
  let reelHash := generateReelHash jobData.reelUrl
  match db.reelDNA.find? (fun r => r.reelUrlHash == reelHash) with
  | some cachedDNA =>
      ({ downloadCalled := false, analyzeCalls := [], usedTier1Cache := true },
       Except.ok { db := db, analysis := cachedDNA.analysis,
                   transcript := cachedDNA.analysis.transcript, frames := [] })
  | none =>
      match env.download with
      | Except.error e =>
          ({ downloadCalled := true, analyzeCalls := [], usedTier1Cache := false }, Except.error e)
      | Except.ok _videoPath =>
          if mode == ("hybrid") || mode == ("frames") then
            let frames := env.frames
            let audioPath := if mode == ("hybrid") then env.audio else none
            if 0 < frames.length then
              let call : AnalyzeCall :=
                { frames := frames, audioPath := audioPath, includeAudio := audioPath.isSome }
              match analyzeVideo env frames audioPath with
              | Except.error e =>
                  ({ downloadCalled := true, analyzeCalls := [call], usedTier1Cache := false },
                   Except.error e)
              | Except.ok va =>
                  ({ downloadCalled := true, analyzeCalls := [call], usedTier1Cache := false },
                   Except.ok { db := storeReelDNA env jobData.reelUrl db va, analysis := va,
                               transcript := va.transcript, frames := frames })
            else
              -- frames empty: fall back to audio-only, re-extracting if needed
              let audioPath2 :=
                match audioPath with
                | some a => some a
                | none => env.audioRetry
              let call : AnalyzeCall :=
                { frames := [], audioPath := audioPath2, includeAudio := true }
              match analyzeVideo env [] audioPath2 with
              | Except.error e =>
                  ({ downloadCalled := true, analyzeCalls := [call], usedTier1Cache := false },
                   Except.error e)
              | Except.ok va =>
                  ({ downloadCalled := true, analyzeCalls := [call], usedTier1Cache := false },
                   Except.ok { db := storeReelDNA env jobData.reelUrl db va, analysis := va,
                               transcript := va.transcript, frames := [] })
          else
            -- audio-only mode
            let call : AnalyzeCall :=
              { frames := [], audioPath := env.audio, includeAudio := true }
            match analyzeVideo env [] env.audio with
            | Except.error e =>
                ({ downloadCalled := true, analyzeCalls := [call], usedTier1Cache := false },
                 Except.error e)
            | Except.ok va =>
                ({ downloadCalled := true, analyzeCalls := [call], usedTier1Cache := false },
                 Except.ok { db := storeReelDNA env jobData.reelUrl db va, analysis := va,
                             transcript := va.transcript, frames := [] })

/-- The worker's script result (scriptQueue `ScriptJobResult`). -/
structure ScriptJobResult where
  success : Bool
  scriptText : String
  imageUrl : String
deriving DecidableEq, Repr

/-- Data produced by the successful tail of one attempt. -/
structure FinishData where
  db : Db
  row : ScriptRow
  payload : ManyChatPayload
  result : ScriptJobResult
deriving DecidableEq, Repr

/-- Steps 6-9 of the worker (part_014 lines 200-324): script generation,
presentation rendering, public-link allocation, Script upsert keyed by
requestHash, and the delivery payload.  (The DatasetEntry write and the
previous-script style lookup have no effect observable by any claim and
are not modelled.) -/
def finishJob (env : PipelineEnv) (jobData : QueueItem) (db : Db) :
    Except PipelineErr FinishData :=
  match env.generate with
  | Except.error e => Except.error e
  | Except.ok scriptText =>
      match env.renderImage with
      | Except.error e => Except.error e
      | Except.ok imageUrl =>
          let publicId := generateUniquePublicId db env.entropy
          let scriptUrl := buildScriptUrl publicId
          let row : ScriptRow :=
            { requestHash := jobData.requestHash, publicId := publicId,
              manychatUserId := jobData.subscriberId, reelUrl := jobData.reelUrl,
              userIdea := jobData.userIdea, scriptText := scriptText,
              imageUrl := some imageUrl, scriptUrl := scriptUrl }
          Except.ok
            { db := upsertScript db row, row := row,
              payload := { subscriber_id := jobData.subscriberId,
                           field_name := ("script_image_url"),
                           field_value := imageUrl, scriptUrl := some scriptUrl },
              result := { success := true, scriptText := scriptText, imageUrl := imageUrl } }

/-- The templated fallback script synthesized from the idea alone
(part_014 lines 363-372). -/
def fallbackScript (userIdea : String) : String :=
  ("I couldn\x27t watch that specific reel, but here is a script based on your idea:\n      \n[HOOK]\n(Start with a strong statement about ")
  ++ userIdea ++
  (")\n\n[BODY]\n(Explain your main point about ")
  ++ userIdea ++
  (")\n\n[CTA]\n(Tell them to comment or follow)")

/-- The fallback delivery payload sent on the final failed attempt
(part_014 lines 375-379). -/
def fallbackPayload (jobData : QueueItem) : ManyChatPayload :=
  { subscriber_id := jobData.subscriberId, field_name := ("AI_Script_Result"),
    field_value := fallbackScript jobData.userIdea, scriptUrl := none }

/-- Everything observable about one worker attempt. -/
structure ProcResult where
  db : Db
  deliveries : List ManyChatPayload
  trace : TraceData
  outcome : Except PipelineErr ScriptJobResult
deriving Repr

/-- The Job update applied on entry to an attempt (part_014 lines 56-63). -/
def markProcessing (attemptsMade : Nat) (j : JobRow) : JobRow :=
  { j with status := JobStatus.processing, attempts := attemptsMade + 1 }

/-- The Job update applied on completion (part_014 lines 327-335). -/
def markCompleted (j : JobRow) : JobRow :=
  { j with status := JobStatus.completed }

/-- The Job update applied in the catch block (part_014 lines 351-359). -/
def markFailed (e : PipelineErr) (j : JobRow) : JobRow :=
  { j with status := JobStatus.failed, error := some (errMessage e) }

/-- The catch block of `processJob` (part_014 lines 346-385): mark the Job
failed with the error message; on the final attempt (attemptsMade >= 2)
synthesize the templated fallback and attempt its delivery; rethrow so
BullMQ applies its retry policy. -/
def jobFailPath (env : PipelineEnv) (attemptsMade : Nat) (jobData : QueueItem)
    (db : Db) (trace : TraceData) (e : PipelineErr) : ProcResult :=
  let dbF := updateJob db jobData.requestId (markFailed e)
  if 2 ≤ attemptsMade then
    let p := fallbackPayload jobData
    let _sent := sendToManyChat env.manychat p
    { db := dbF, deliveries := [p], trace := trace, outcome := Except.error e }
  else
    { db := dbF, deliveries := [], trace := trace, outcome := Except.error e }

/-- One attempt of `processJob` (part_014 lines 40-394): mark processing,
run the acquisition/analysis phase, then the generation/persist/delivery
tail, marking completed on success; any thrown error goes through the
catch block.  The delivery call goes through `sendToManyChat`, whose
result is inspected exactly as the awaiting caller would. -/
def processJob (mode : String) (env : PipelineEnv) (attemptsMade : Nat)
    (jobData : QueueItem) (db0 : Db) : ProcResult :=
  let db1 := updateJob db0 jobData.requestId (markProcessing attemptsMade)
  let phase := acquireAndAnalyze mode env jobData db1
  match phase.snd with
  | Except.error e => jobFailPath env attemptsMade jobData db1 phase.fst e
  | Except.ok core =>
      match finishJob env jobData core.db with
      | Except.error e => jobFailPath env attemptsMade jobData core.db phase.fst e
      | Except.ok fin =>
          match (sendToManyChat env.manychat fin.payload).fst with
          | Except.error e =>
              -- unreachable: the dispatcher never throws; kept for fidelity
              jobFailPath env attemptsMade jobData fin.db phase.fst
                (PipelineErr.generation e)
          | Except.ok _ =>
              { db := updateJob fin.db jobData.requestId markCompleted,
                deliveries := [fin.payload], trace := phase.fst,
                outcome := Except.ok fin.result }

/-- Whether a worker attempt threw. -/
def outcomeIsError : Except PipelineErr ScriptJobResult → Bool
  | Except.error _ => true
  | Except.ok _ => false

/-- Observable result of driving one queued job through the BullMQ retry
policy (scriptQueue defaultJobOptions, part_012 lines 14-22: attempts 3). -/
structure RunResult where
  db : Db
  deliveries : List ManyChatPayload
  attemptsUsed : Nat
  finalOutcome : Except PipelineErr ScriptJobResult
deriving Repr

/-- BullMQ driving a job to completion under `attempts: 3` (part_012):
attemptsMade is 0, 1, 2 on the successive runs; a successful run stops the
retries; after the third failed run the job is left failed.  Each attempt
may face different external-capability outcomes. -/
def runJob (mode : String) (e0 e1 e2 : PipelineEnv) (jobData : QueueItem) (db : Db) : RunResult :=
  let r0 := processJob mode e0 0 jobData db
  match r0.outcome with
  | Except.ok res =>
      { db := r0.db, deliveries := r0.deliveries, attemptsUsed := 1, finalOutcome := Except.ok res }
  | Except.error _ =>
      let r1 := processJob mode e1 1 jobData r0.db
      match r1.outcome with
      | Except.ok res =>
          { db := r1.db, deliveries := r0.deliveries ++ r1.deliveries,
            attemptsUsed := 2, finalOutcome := Except.ok res }
      | Except.error _ =>
          let r2 := processJob mode e2 2 jobData r1.db
          { db := r2.db, deliveries := r0.deliveries ++ r1.deliveries ++ r2.deliveries,
            attemptsUsed := 3, finalOutcome := r2.outcome }

/-! ## Concrete fixtures used by witnesses and counterexamples -/

/-- An empty database. -/
def dbEmpty : Db := { scripts := [], jobs := [], reelDNA := [] }

/-- A concrete valid submission (spec section 8, scenario A). -/
def body0 : Submission :=
  { subscriber_id := ("u1"), reel_url := ("https://instagram.com/reel/abc"),
    user_idea := ("cooking tip") }

/-- The fingerprint of `body0`. -/
def hash0 : String :=
  generateRequestHash ("u1") ("https://instagram.com/reel/abc") ("cooking tip")

/-- A stored Script row for the `body0` fingerprint. -/
def scriptRow0 : ScriptRow :=
  { requestHash := hash0, publicId := ("existing0"), manychatUserId := ("u1"),
    reelUrl := ("https://instagram.com/reel/abc"), userIdea := ("cooking tip"),
    scriptText := ("STORED SCRIPT"), imageUrl := some ("https://img.example/1.png"),
    scriptUrl := ("http://localhost:3000/s/existing0") }

/-- A database already holding the artifact for `body0`. -/
def dbWithScript : Db := { scripts := [scriptRow0], jobs := [], reelDNA := [] }

/-- An in-flight Job row for the `body0` fingerprint. -/
def jobRow0 : JobRow :=
  { jobId := ("job-1"), subscriberId := ("u1"), status := JobStatus.queued,
    reelUrl := ("https://instagram.com/reel/abc"), userIdea := ("cooking tip"),
    requestHash := hash0, attempts := 0, error := none }

/-- A database already holding an in-flight Job for `body0`. -/
def dbWithJob : Db := { scripts := [], jobs := [jobRow0], reelDNA := [] }

/-- The queue item the intake gate would enqueue for `body0`. -/
def job0 : QueueItem :=
  { requestId := ("job-1"), requestHash := hash0, subscriberId := ("u1"),
    reelUrl := ("https://instagram.com/reel/abc"), userIdea := ("cooking tip") }

/-- A concrete analysis payload. -/
def va0 : VideoAnalysis :=
  { transcript := some ("hello there"), visualCues := [("fast cuts")],
    hookType := ("Stop scrolling"), tone := ("High Energy"),
    sceneDescriptions := [("kitchen table")] }

/-- Entropy whose first draw yields the all-zero 8-character id. -/
def entropy0 : Entropy :=
  { draw0 := [0, 0, 0, 0, 0, 0], draw1 := [1, 0, 0, 0, 0, 0],
    draw2 := [2, 0, 0, 0, 0, 0], fallbackDraw := [0, 0, 0, 0, 0, 0, 0, 0, 0] }

/-- A ManyChat environment in which every call succeeds. -/
def mcOkEnv : ManyChatEnv :=
  { hasApiKey := true, subscriberNumeric := true, setFieldOk := true,
    sendImageOk := true, sendLinkOk := true }

/-- A ManyChat environment in which every HTTP call fails. -/
def mcAllFail : ManyChatEnv :=
  { hasApiKey := true, subscriberNumeric := true, setFieldOk := false,
    sendImageOk := false, sendLinkOk := false }

/-- A pipeline environment in which every capability succeeds. -/
def happyEnv : PipelineEnv :=
  { download := Except.ok ("/tmp/v.mp4"), frames := [("f-0001.jpg")],
    audio := some ("a.wav"), audioRetry := none, analyze := Except.ok va0,
    raceDNA := none, generate := Except.ok ("GENERATED SCRIPT"),
    renderImage := Except.ok ("https://img.example/gen.png"),
    entropy := entropy0, manychat := mcOkEnv }

/-- A pipeline environment in which acquisition fails with the bound
violation thrown by `downloadReel` (reelDownloader.ts line 37). -/
def acqFailEnv : PipelineEnv :=
  { happyEnv with download := Except.error (PipelineErr.acquisition ("Video too long")) }

/-- A pipeline environment in which frame extraction yields no frames and
both audio extraction calls resolve null. -/
def noMediaEnv : PipelineEnv :=
  { happyEnv with frames := [], audio := none, audioRetry := none }

/-! ## Theorems -/

/-- An in-window request (now at most WINDOW_MS past the record's window
start) against an existing record below the maximum increments the counter
and calls next(). -/
theorem rateLimiter_increments (ip : String) (t now c : Nat)
    (hin : now - t ≤ WINDOW_MS) (hc : c < MAX_REQUESTS) :
    rateLimiter false [{ ip := ip, count := c, windowStart := t }] ip now =
      (RLOutcome.nextCalled, [{ ip := ip, count := c + 1, windowStart := t }]) := by
  simp [rateLimiter, rlFind, rlPut, Nat.not_lt.mpr hin, Nat.not_le.mpr hc]

/-- Requests at arbitrary times inside the current window drive the
counter up to the maximum, all forwarded, without moving the window
start. -/
theorem rlRequests_window (ip : String) (t0 : Nat) :
    ∀ (ts : List Nat) (c : Nat), 1 ≤ c → c + ts.length ≤ MAX_REQUESTS →
    (∀ s ∈ ts, s - t0 ≤ WINDOW_MS) →
    rlRequests [{ ip := ip, count := c, windowStart := t0 }] ip ts =
      (List.replicate ts.length RLOutcome.nextCalled,
       [{ ip := ip, count := c + ts.length, windowStart := t0 }]) := by
  intro ts
  induction ts with
  | nil => intro c _ _ _; simp [rlRequests]
  | cons s ts ih =>
      intro c hc hk hin
      have hlt : c < MAX_REQUESTS := by
        simp only [List.length_cons] at hk
        omega
      have hs : s - t0 ≤ WINDOW_MS := hin s (List.mem_cons_self s ts)
      rw [rlRequests, rateLimiter_increments ip t0 s c hs hlt]
      have tail := ih (c + 1) (by omega)
        (by simp only [List.length_cons] at hk; omega)
        (fun x hx => hin x (List.mem_cons_of_mem s hx))
      simp only at tail ⊢
      rw [tail]
      have : c + 1 + ts.length = c + (ts.length + 1) := by omega
      rw [this, List.length_cons, List.replicate_succ]

/-- C9: the rate limiter is a fixed-window counter per caller.  From a
fresh store, a first request at time t0 followed by 99 further requests at
ANY times inside the window it opens are all forwarded and leave a counter
of 100 with the window start unmoved; a 101st request at ANY in-window
time is rejected with status 429 and the downstream intake gate is never
invoked; the first request at any time strictly past the window resets the
counter to 1 and is forwarded; and when the backing store errors the
limiter fails open, forwarding the request with the store untouched. -/
theorem rateLimiter_fixed_window {α : Type} (gate : Unit → α) (ip : String) (t0 : Nat)
    (ts : List Nat) (tReject tRoll : Nat) (store : List RateLimitRecord) (now : Nat)
    (hlen : ts.length = MAX_REQUESTS - 1)
    (hin : ∀ s ∈ ts, s - t0 ≤ WINDOW_MS)
    (hrej : tReject - t0 ≤ WINDOW_MS)
    (hroll : WINDOW_MS < tRoll - t0) :
    (rlRequests [] ip (t0 :: ts)).fst
        = List.replicate MAX_REQUESTS RLOutcome.nextCalled ∧
    (rlRequests [] ip (t0 :: ts)).snd
        = [{ ip := ip, count := MAX_REQUESTS, windowStart := t0 }] ∧
    rateLimiter false [{ ip := ip, count := MAX_REQUESTS, windowStart := t0 }] ip tReject
        = (RLOutcome.rejected 429, [{ ip := ip, count := MAX_REQUESTS, windowStart := t0 }]) ∧
    (rateLimitedEndpoint false [{ ip := ip, count := MAX_REQUESTS, windowStart := t0 }]
        ip tReject gate).fst = none ∧
    rateLimiter false [{ ip := ip, count := MAX_REQUESTS, windowStart := t0 }] ip tRoll
        = (RLOutcome.nextCalled, [{ ip := ip, count := 1, windowStart := tRoll }]) ∧
    rateLimitedEndpoint true store ip now gate = (some (gate ()), store) := by
  have hmax : MAX_REQUESTS = 100 := rfl
  have first : rateLimiter false [] ip t0 =
      (RLOutcome.nextCalled, [{ ip := ip, count := 1, windowStart := t0 }]) := by
    simp [rateLimiter, rlFind, rlPut]
  have run : rlRequests [] ip (t0 :: ts) =
      (List.replicate MAX_REQUESTS RLOutcome.nextCalled,
       [{ ip := ip, count := MAX_REQUESTS, windowStart := t0 }]) := by
    rw [rlRequests, first]
    have tail := rlRequests_window ip t0 ts 1 (by omega) (by omega) hin
    simp only at tail ⊢
    rw [tail, hlen]
    have h1 : (1 : Nat) + (MAX_REQUESTS - 1) = MAX_REQUESTS := by omega
    have h3 : List.replicate MAX_REQUESTS RLOutcome.nextCalled
        = RLOutcome.nextCalled :: List.replicate (MAX_REQUESTS - 1) RLOutcome.nextCalled := by
      decide
    rw [h1, h3]
  have rejectStep : rateLimiter false
        [{ ip := ip, count := MAX_REQUESTS, windowStart := t0 }] ip tReject
      = (RLOutcome.rejected 429,
         [{ ip := ip, count := MAX_REQUESTS, windowStart := t0 }]) := by
    simp [rateLimiter, rlFind, Nat.not_lt.mpr hrej]
  have rollStep : rateLimiter false
        [{ ip := ip, count := MAX_REQUESTS, windowStart := t0 }] ip tRoll
      = (RLOutcome.nextCalled, [{ ip := ip, count := 1, windowStart := tRoll }]) := by
    simp [rateLimiter, rlFind, rlPut, hroll]
  refine ⟨congrArg Prod.fst run, congrArg Prod.snd run, rejectStep, ?_, rollStep, ?_⟩
  · simp [rateLimitedEndpoint, rejectStep]
  · simp [rateLimitedEndpoint, rateLimiter]

/-- C9 witness: the fixed-window behavior evaluated at spread-out
in-window instants — the window opens at 1000, the next 99 requests
arrive one millisecond apart, the 101st arrives mid-window at 450000 and
is rejected without reaching the gate, and a request one millisecond past
the window resets the counter. -/
theorem rateLimiter_fixed_window_witness :
    (rlRequests [] ("203.0.113.7")
        (1000 :: (List.range 99).map (fun i => 1001 + i))).fst
      = List.replicate MAX_REQUESTS RLOutcome.nextCalled ∧
    (rateLimitedEndpoint false
        [{ ip := ("203.0.113.7"), count := MAX_REQUESTS, windowStart := 1000 }]
        ("203.0.113.7") 450000 (fun _ => (0 : Nat))).fst = none ∧
    rateLimiter false [{ ip := ("203.0.113.7"), count := MAX_REQUESTS, windowStart := 1000 }]
        ("203.0.113.7") (1000 + WINDOW_MS + 1)
      = (RLOutcome.nextCalled,
         [{ ip := ("203.0.113.7"), count := 1, windowStart := 1000 + WINDOW_MS + 1 }]) :=
  have h := rateLimiter_fixed_window (fun _ => (0 : Nat)) ("203.0.113.7") 1000
    ((List.range 99).map (fun i => 1001 + i)) 450000 (1000 + WINDOW_MS + 1) [] 0
    (by decide) (by decide) (by decide) (by decide)
  ⟨h.1, h.2.2.2.1, h.2.2.2.2.1⟩

/-- C8 counterexample: a malformed identifier and a well-formed identifier
with no matching artifact do NOT receive an identical response.  On the
empty store, the malformed id gets status 400 with the message Invalid
script link, while the missing well-formed id gets status 404 with the
message Script not found or expired. -/
theorem viewScript_responses_differ :
    (viewScriptHandler dbEmpty ("bad id!")).status = 400 ∧
    (viewScriptHandler dbEmpty ("AAAAAA")).status = 404 ∧
    viewScriptHandler dbEmpty ("bad id!") ≠ viewScriptHandler dbEmpty ("AAAAAA") := by
  refine ⟨rfl, rfl, ?_⟩
  decide

/-- C8 amended: the public artifact page validates the path segment
(charset [A-Za-z0-9_-], length 6 to 12) before any store lookup, so a
malformed identifier never triggers a store lookup; but the two failure
responses are distinguishable: a malformed identifier receives 400 with
the Invalid script link page while a well-formed identifier with no
matching artifact receives 404 with the Script not found or expired page. -/
theorem viewScript_validation_before_lookup (db : Db) (pid : String) :
    (publicIdFormatOk pid = false →
      viewScriptHandler db pid =
        { status := 400, page := PageKind.errorPage ("Invalid script link"),
          lookupPerformed := false }) ∧
    (publicIdFormatOk pid = true → findScriptByPublicId db pid = none →
      viewScriptHandler db pid =
        { status := 404, page := PageKind.errorPage ("Script not found or expired"),
          lookupPerformed := true }) := by
  constructor
  · intro h
    simp [viewScriptHandler, h]
  · intro h hmiss
    simp [viewScriptHandler, h, hmiss]

/-- C8 witness: the amended behavior evaluated at a concrete malformed id
and a concrete well-formed missing id. -/
theorem viewScript_validation_before_lookup_witness :
    viewScriptHandler dbEmpty ("bad id!") =
      { status := 400, page := PageKind.errorPage ("Invalid script link"),
        lookupPerformed := false } ∧
    viewScriptHandler dbEmpty ("AAAAAA") =
      { status := 404, page := PageKind.errorPage ("Script not found or expired"),
        lookupPerformed := true } :=
  ⟨(viewScript_validation_before_lookup dbEmpty ("bad id!")).1 (by decide),
   (viewScript_validation_before_lookup dbEmpty ("AAAAAA")).2 (by decide) (by decide)⟩

/-- Every base64url digit lies in the serving-route character class. -/
theorem base64UrlDigit_valid (n : Nat) : isBase64UrlChar (base64UrlDigit (n % 64)) = true := by
  have h : n % 64 < 64 := Nat.mod_lt _ (by decide)
  revert h
  have : ∀ m, m < 64 → isBase64UrlChar (base64UrlDigit m) = true := by decide
  exact this (n % 64)

/-- Every character emitted by the base64url encoder lies in the
serving-route character class. -/
theorem base64UrlEncode_allValid (l : List Nat) :
    (base64UrlEncode l).all isBase64UrlChar = true := by
  induction l using base64UrlEncode.induct with
  | case1 b0 b1 b2 rest ih =>
      simp [base64UrlEncode, b64Group, List.all_append, ih, base64UrlDigit_valid]
  | case2 b0 b1 =>
      simp [base64UrlEncode, base64UrlDigit_valid]
  | case3 b0 =>
      simp [base64UrlEncode, base64UrlDigit_valid]
  | case4 =>
      simp [base64UrlEncode]

/-- Output length of the base64url encoder: 4 digits per full 3-byte
group, 3 digits for 2 leftover bytes, 2 digits for 1 leftover byte. -/
theorem base64UrlEncode_length (l : List Nat) :
    (base64UrlEncode l).length =
      l.length / 3 * 4 + (if l.length % 3 = 0 then 0 else l.length % 3 + 1) := by
  induction l using base64UrlEncode.induct with
  | case1 b0 b1 b2 rest ih =>
      have hdiv : (rest.length + 3) / 3 = rest.length / 3 + 1 := by
        omega
      have hmod : (rest.length + 3) % 3 = rest.length % 3 := by
        omega
      simp only [base64UrlEncode, List.length_append, ih, List.length_cons, List.length]
      simp [b64Group, hdiv, hmod]
      omega
  | case2 b0 b1 => simp [base64UrlEncode]
  | case3 b0 => simp [base64UrlEncode]
  | case4 => simp [base64UrlEncode]

/-- An id encoded from a 6-byte or a 9-byte draw passes the serving-route
format check. -/
theorem generatePublicId_formatOk (l : List Nat) (h : l.length = 6 ∨ l.length = 9) :
    publicIdFormatOk (generatePublicId l) = true := by
  have hall : (base64UrlEncode l).all isBase64UrlChar = true := base64UrlEncode_allValid l
  have hlen := base64UrlEncode_length l
  unfold publicIdFormatOk generatePublicId
  show ((6 ≤ (base64UrlEncode l).length && (base64UrlEncode l).length ≤ 12)
          && (base64UrlEncode l).all isBase64UrlChar) = true
  rcases h with h | h <;> rw [h] at hlen <;> simp at hlen <;> simp [hlen, hall]

/-- C10: every identifier issued by the public-link allocator matches the
serving route's validation pattern: the primary candidates are 8-character
base64url encodings of 6 random bytes, the post-collision fallback is a
12-character encoding of 9 random bytes, and whichever of them
`generateUniquePublicId` returns passes `publicIdFormatOk`. -/
theorem generateUniquePublicId_matches_pattern (db : Db) (e : Entropy)
    (h0 : e.draw0.length = 6) (h1 : e.draw1.length = 6) (h2 : e.draw2.length = 6)
    (hf : e.fallbackDraw.length = 9) :
    (generatePublicId e.draw0).length = 8 ∧
    (generatePublicId e.fallbackDraw).length = 12 ∧
    publicIdFormatOk (generateUniquePublicId db e) = true := by
  have len0 : (generatePublicId e.draw0).length = 8 := by
    show (base64UrlEncode e.draw0).length = 8
    rw [base64UrlEncode_length, h0]
    decide
  have lenF : (generatePublicId e.fallbackDraw).length = 12 := by
    show (base64UrlEncode e.fallbackDraw).length = 12
    rw [base64UrlEncode_length, hf]
    decide
  refine ⟨len0, lenF, ?_⟩
  unfold generateUniquePublicId
  by_cases c0 : (findScriptByPublicId db (generatePublicId e.draw0)).isNone
  · simp [c0, generatePublicId_formatOk e.draw0 (Or.inl h0)]
  · by_cases c1 : (findScriptByPublicId db (generatePublicId e.draw1)).isNone
    · simp [c0, c1, generatePublicId_formatOk e.draw1 (Or.inl h1)]
    · by_cases c2 : (findScriptByPublicId db (generatePublicId e.draw2)).isNone
      · simp [c0, c1, c2, generatePublicId_formatOk e.draw2 (Or.inl h2)]
      · simp [c0, c1, c2, generatePublicId_formatOk e.fallbackDraw (Or.inr hf)]

/-- C10 witness: the pattern check evaluated for the concrete entropy
fixture on the empty store. -/
theorem generateUniquePublicId_matches_pattern_witness :
    (generatePublicId entropy0.draw0).length = 8 ∧
    (generatePublicId entropy0.fallbackDraw).length = 12 ∧
    publicIdFormatOk (generateUniquePublicId dbEmpty entropy0) = true :=
  generateUniquePublicId_matches_pattern dbEmpty entropy0
    (by decide) (by decide) (by decide) (by decide)

/-- C1: for every valid submission whose fingerprint already has a stored
Script artifact, the intake handler returns the stored result
synchronously, leaves the database unchanged (creates no Job) and enqueues
nothing; for every valid submission with no stored Script but an existing
Job in status queued or processing for the same fingerprint, it returns
the already-processing acknowledgment, leaves the database unchanged and
enqueues nothing. -/
theorem generateScriptHandler_idempotency (requestId : String) (db : Db) (body : Submission)
    (hv : scriptGenerationSchemaCheck body = true) :
    (∀ row, findScriptByHash db
        (generateRequestHash body.subscriber_id body.reel_url body.user_idea) = some row →
      generateScriptHandler requestId db body =
        { response := IntakeResponse.cachedResult row.scriptText (jsOrNull row.imageUrl),
          db := db, enqueued := [] }) ∧
    (∀ jrow, findScriptByHash db
        (generateRequestHash body.subscriber_id body.reel_url body.user_idea) = none →
      findInflightJob db
        (generateRequestHash body.subscriber_id body.reel_url body.user_idea) = some jrow →
      generateScriptHandler requestId db body =
        { response := IntakeResponse.alreadyProcessing jrow.jobId,
          db := db, enqueued := [] }) := by
  constructor
  · intro row hhit
    simp [generateScriptHandler, hv, hhit]
  · intro jrow hmiss hjob
    simp [generateScriptHandler, hv, hmiss, hjob]

/-- C1 witness: the two branches evaluated at concrete stores — one
holding the artifact for the fixture submission, one holding an in-flight
queued Job for it. -/
theorem generateScriptHandler_idempotency_witness :
    generateScriptHandler ("req-9") dbWithScript body0 =
      { response := IntakeResponse.cachedResult scriptRow0.scriptText (jsOrNull scriptRow0.imageUrl),
        db := dbWithScript, enqueued := [] } ∧
    generateScriptHandler ("req-9") dbWithJob body0 =
      { response := IntakeResponse.alreadyProcessing jobRow0.jobId,
        db := dbWithJob, enqueued := [] } :=
  ⟨(generateScriptHandler_idempotency ("req-9") dbWithScript body0 (by decide)).1
      scriptRow0 (by decide),
   (generateScriptHandler_idempotency ("req-9") dbWithJob body0 (by decide)).2
      jobRow0 (by decide) (by decide)⟩

/-- Job updates never touch the Script collection. -/
theorem updateJob_scripts (db : Db) (id : String) (f : JobRow → JobRow) :
    (updateJob db id f).scripts = db.scripts := rfl

/-- The Tier-1 cache store never touches the Script collection. -/
theorem storeReelDNA_scripts (env : PipelineEnv) (url : String) (db : Db) (va : VideoAnalysis) :
    (storeReelDNA env url db va).scripts = db.scripts := by
  unfold storeReelDNA
  cases env.raceDNA <;> dsimp only <;> split <;> rfl

/-- The Tier-1 cache store never touches the Job collection. -/
theorem storeReelDNA_jobs (env : PipelineEnv) (url : String) (db : Db) (va : VideoAnalysis) :
    (storeReelDNA env url db va).jobs = db.jobs := by
  unfold storeReelDNA
  cases env.raceDNA <;> dsimp only <;> split <;> rfl

/-- A successful acquisition/analysis phase leaves the Script collection
of its input database unchanged. -/
theorem acquireAndAnalyze_scripts (mode : String) (env : PipelineEnv) (j : QueueItem) (db : Db) :
    ∀ core, (acquireAndAnalyze mode env j db).snd = Except.ok core →
      core.db.scripts = db.scripts := by
  intro core h
  simp only [acquireAndAnalyze] at h
  cases hfind : db.reelDNA.find? (fun r => r.reelUrlHash == generateReelHash j.reelUrl) <;>
    rw [hfind] at h
  case some cached =>
    simp only [] at h
    cases h
    rfl
  case none =>
    cases hdl : env.download <;> rw [hdl] at h
    case error e => simp at h
    case ok vp =>
      by_cases hm : (mode == ("hybrid") || mode == ("frames")) = true <;>
        simp only [hm, if_true, if_false, Bool.false_eq_true] at h
      · by_cases hfr : (0 < env.frames.length) <;> simp only [hfr, if_true, if_false] at h
        · cases ha : analyzeVideo env env.frames (if mode == ("hybrid") then env.audio else none) <;>
            rw [ha] at h <;> simp only [] at h
          · exact absurd h (by simp)
          · cases h; exact storeReelDNA_scripts env j.reelUrl db _
        · cases ha : analyzeVideo env []
              (match (if mode == ("hybrid") then env.audio else none) with
                | some a => some a
                | none => env.audioRetry) <;>
            rw [ha] at h <;> simp only [] at h
          · exact absurd h (by simp)
          · cases h; exact storeReelDNA_scripts env j.reelUrl db _
      · cases ha : analyzeVideo env [] env.audio <;> rw [ha] at h <;> simp only [] at h
        · exact absurd h (by simp)
        · cases h; exact storeReelDNA_scripts env j.reelUrl db _

/-- A successful acquisition/analysis phase leaves the Job collection of
its input database unchanged. -/
theorem acquireAndAnalyze_jobs (mode : String) (env : PipelineEnv) (j : QueueItem) (db : Db) :
    ∀ core, (acquireAndAnalyze mode env j db).snd = Except.ok core →
      core.db.jobs = db.jobs := by
  intro core h
  simp only [acquireAndAnalyze] at h
  cases hfind : db.reelDNA.find? (fun r => r.reelUrlHash == generateReelHash j.reelUrl) <;>
    rw [hfind] at h
  case some cached =>
    simp only [] at h
    cases h
    rfl
  case none =>
    cases hdl : env.download <;> rw [hdl] at h
    case error e => simp at h
    case ok vp =>
      by_cases hm : (mode == ("hybrid") || mode == ("frames")) = true <;>
        simp only [hm, if_true, if_false, Bool.false_eq_true] at h
      · by_cases hfr : (0 < env.frames.length) <;> simp only [hfr, if_true, if_false] at h
        · cases ha : analyzeVideo env env.frames (if mode == ("hybrid") then env.audio else none) <;>
            rw [ha] at h <;> simp only [] at h
          · exact absurd h (by simp)
          · cases h; exact storeReelDNA_jobs env j.reelUrl db _
        · cases ha : analyzeVideo env []
              (match (if mode == ("hybrid") then env.audio else none) with
                | some a => some a
                | none => env.audioRetry) <;>
            rw [ha] at h <;> simp only [] at h
          · exact absurd h (by simp)
          · cases h; exact storeReelDNA_jobs env j.reelUrl db _
      · cases ha : analyzeVideo env [] env.audio <;> rw [ha] at h <;> simp only [] at h
        · exact absurd h (by simp)
        · cases h; exact storeReelDNA_jobs env j.reelUrl db _

/-- The notification dispatcher returns normally for every environment and
payload: its outer catch converts every failure into a logged return. -/
theorem sendToManyChat_ok (env : ManyChatEnv) (p : ManyChatPayload) :
    (sendToManyChat env p).fst = Except.ok () := by
  unfold sendToManyChat
  by_cases hk : env.hasApiKey <;> by_cases hs : env.subscriberNumeric <;>
    by_cases hf : env.setFieldOk <;> simp [hk, hs, hf]

/-- The catch block marks the Job failed, delivers the fallback exactly on
the final attempt, and rethrows. -/
theorem jobFailPath_spec (env : PipelineEnv) (am : Nat) (j : QueueItem) (db : Db)
    (tr : TraceData) (e : PipelineErr) :
    jobFailPath env am j db tr e =
      { db := updateJob db j.requestId (markFailed e),
        deliveries := if 2 ≤ am then [fallbackPayload j] else [],
        trace := tr, outcome := Except.error e } := by
  unfold jobFailPath
  split <;> simp_all

/-- Replacing every matching row of a keyed list leaves the searched key
pointing at the replacement. -/
theorem find_map_replace (l : List ScriptRow) (row : ScriptRow)
    (h : (l.find? (fun s => s.requestHash == row.requestHash)).isSome = true) :
    (l.map (fun s => if s.requestHash == row.requestHash then row else s)).find?
        (fun s => s.requestHash == row.requestHash) = some row := by
  induction l with
  | nil => simp at h
  | cons a l ih =>
      by_cases ha : ((fun s => s.requestHash == row.requestHash) a = true)
      · simp only [List.map, ha, if_true]
        exact List.find?_cons_of_pos _ (by simp)
      · rw [@List.find?_cons_of_neg _ (fun s => s.requestHash == row.requestHash) a l ha] at h
        simp only [List.map]
        have ha2 : (a.requestHash == row.requestHash) = false := by
          simpa using ha
        rw [ha2]
        simp only [Bool.false_eq_true, if_false]
        rw [@List.find?_cons_of_neg _ (fun s => s.requestHash == row.requestHash) a
            (l.map (fun s => if s.requestHash == row.requestHash then row else s)) ha]
        exact ih h

/-- Appending a fresh row to a keyed list makes the key findable. -/
theorem find_append_fresh (l : List ScriptRow) (row : ScriptRow)
    (h : l.find? (fun s => s.requestHash == row.requestHash) = none) :
    (l ++ [row]).find? (fun s => s.requestHash == row.requestHash) = some row := by
  induction l with
  | nil =>
      simp only [List.nil_append]
      exact List.find?_cons_of_pos _ (by simp)
  | cons a l ih =>
      have ha : ¬ ((fun s => s.requestHash == row.requestHash) a = true) := by
        intro hc
        rw [@List.find?_cons_of_pos _ (fun s => s.requestHash == row.requestHash) a l hc] at h
        simp at h
      rw [@List.find?_cons_of_neg _ (fun s => s.requestHash == row.requestHash) a l ha] at h
      rw [List.cons_append,
          @List.find?_cons_of_neg _ (fun s => s.requestHash == row.requestHash) a (l ++ [row]) ha]
      exact ih h

/-- After the worker's upsert, the fingerprint resolves to the new row. -/
theorem upsertScript_find (db : Db) (row : ScriptRow) :
    findScriptByHash (upsertScript db row) row.requestHash = some row := by
  unfold upsertScript
  by_cases hp : (findScriptByHash db row.requestHash).isSome = true
  · simp only [hp, if_true]
    show ((db.scripts.map fun s => if s.requestHash == row.requestHash then row else s).find?
        (fun s => s.requestHash == row.requestHash)) = some row
    refine find_map_replace db.scripts row ?_
    unfold findScriptByHash at hp
    exact hp
  · simp only [hp, Bool.false_eq_true, if_false]
    show (db.scripts ++ [row]).find? (fun s => s.requestHash == row.requestHash) = some row
    refine find_append_fresh db.scripts row ?_
    unfold findScriptByHash at hp
    cases hfind : db.scripts.find? (fun s => s.requestHash == row.requestHash)
    · rfl
    · rw [hfind] at hp; simp at hp

/-- A successful generation tail persists the Script via the upsert keyed
by the job fingerprint, with the freshly allocated public id. -/
theorem finishJob_spec (env : PipelineEnv) (j : QueueItem) (db : Db) (fin : FinishData)
    (h : finishJob env j db = Except.ok fin) :
    fin.db = upsertScript db fin.row ∧ fin.row.requestHash = j.requestHash ∧
    fin.row.publicId = generateUniquePublicId db env.entropy := by
  unfold finishJob at h
  cases hg : env.generate with
  | error e => rw [hg] at h; exact absurd h (by simp)
  | ok s =>
      rw [hg] at h
      cases hr : env.renderImage with
      | error e => rw [hr] at h; exact absurd h (by simp)
      | ok u =>
          rw [hr] at h
          simp only [Except.ok.injEq] at h
          cases h
          exact ⟨rfl, rfl, rfl⟩

/-- After the completion update, every Job row carrying the finished job
id has status completed. -/
theorem mem_updateJob_completed (db : Db) (id : String) :
    ∀ row, row ∈ (updateJob db id markCompleted).jobs → row.jobId = id →
      row.status = JobStatus.completed := by
  intro row hmem hid
  unfold updateJob at hmem
  simp only [List.mem_map] at hmem
  obtain ⟨orig, _, rfl⟩ := hmem
  by_cases hj : (orig.jobId == id) = true
  · simp [hj, markCompleted]
  · simp only [hj, Bool.false_eq_true, if_false] at hid ⊢
    exact absurd hid (by simpa using hj)

/-- Characterization of a failed attempt: the attempt delivers the
fallback exactly when it is the final one, and never touches the Script
collection. -/
theorem processJob_error_spec (mode : String) (env : PipelineEnv) (am : Nat)
    (j : QueueItem) (db : Db)
    (h : outcomeIsError (processJob mode env am j db).outcome = true) :
    (processJob mode env am j db).deliveries = (if 2 ≤ am then [fallbackPayload j] else []) ∧
    (processJob mode env am j db).db.scripts = db.scripts := by
  simp only [processJob] at h ⊢
  cases hA : (acquireAndAnalyze mode env j (updateJob db j.requestId (markProcessing am))).snd with
  | error e =>
      simp only [jobFailPath_spec]
      exact ⟨trivial, rfl⟩
  | ok core =>
      rw [hA] at h
      dsimp only at h ⊢
      cases hF : finishJob env j core.db with
      | error e =>
          simp only [jobFailPath_spec]
          refine ⟨trivial, ?_⟩
          have hcore := acquireAndAnalyze_scripts mode env j
            (updateJob db j.requestId (markProcessing am)) core hA
          simpa using hcore
      | ok fin =>
          rw [hF] at h
          dsimp only at h
          rw [sendToManyChat_ok env.manychat fin.payload] at h
          simp [outcomeIsError] at h

/-- Characterization of a successful attempt: exactly one delivery, the
artifact resolvable by fingerprint, and the Job rows marked completed. -/
theorem processJob_ok_strong (mode : String) (env : PipelineEnv) (am : Nat)
    (j : QueueItem) (db : Db)
    (h : outcomeIsError (processJob mode env am j db).outcome = false) :
    (processJob mode env am j db).deliveries.length = 1 ∧
    (findScriptByHash (processJob mode env am j db).db j.requestHash).isSome = true ∧
    (∀ row, row ∈ (processJob mode env am j db).db.jobs → row.jobId = j.requestId →
        row.status = JobStatus.completed) := by
  simp only [processJob] at h ⊢
  cases hA : (acquireAndAnalyze mode env j (updateJob db j.requestId (markProcessing am))).snd with
  | error e =>
      rw [hA] at h
      simp [jobFailPath_spec, outcomeIsError] at h
  | ok core =>
      rw [hA] at h
      dsimp only at h ⊢
      cases hF : finishJob env j core.db with
      | error e =>
          rw [hF] at h
          simp [jobFailPath_spec, outcomeIsError] at h
      | ok fin =>
          rw [hF] at h
          dsimp only at h ⊢
          rw [sendToManyChat_ok env.manychat fin.payload] at h ⊢
          obtain ⟨hdb, hhash, _⟩ := finishJob_spec env j core.db fin hF
          refine ⟨rfl, ?_, ?_⟩
          · show (findScriptByHash (updateJob fin.db j.requestId markCompleted)
                j.requestHash).isSome = true
            have hpres : findScriptByHash (updateJob fin.db j.requestId markCompleted)
                j.requestHash = findScriptByHash fin.db j.requestHash := rfl
            rw [hpres, hdb, ← hhash, upsertScript_find]
            rfl
          · intro row hm hid
            exact mem_updateJob_completed fin.db j.requestId row hm hid

/-- C2 counterexample: a job that exhausts all three attempts executes the
fallback branch and attempts delivery of the templated script, but
persists NO Script artifact: after the run the fingerprint still has no
Script row, contradicting the claim that the fallback persists the
synthesized script as the Script artifact. -/
theorem fallback_persists_no_artifact :
    (runJob ("hybrid") acqFailEnv acqFailEnv acqFailEnv job0 dbEmpty).attemptsUsed = 3 ∧
    outcomeIsError (runJob ("hybrid") acqFailEnv acqFailEnv acqFailEnv job0 dbEmpty).finalOutcome
      = true ∧
    (runJob ("hybrid") acqFailEnv acqFailEnv acqFailEnv job0 dbEmpty).deliveries
      = [fallbackPayload job0] ∧
    findScriptByHash (runJob ("hybrid") acqFailEnv acqFailEnv acqFailEnv job0 dbEmpty).db
      job0.requestHash = none := by
  refine ⟨rfl, rfl, by decide, by decide⟩

/-- C2 amended: every job run ends with exactly one terminal delivery
attempt — the full result on the successful attempt, or, when all three
attempts fail, the fallback synthesized from the user idea alone, sent on
the final attempt without persisting any Script artifact. -/
theorem runJob_guaranteed_delivery (mode : String) (e0 e1 e2 : PipelineEnv)
    (j : QueueItem) (db : Db) :
    (runJob mode e0 e1 e2 j db).deliveries.length = 1 ∧
    (outcomeIsError (runJob mode e0 e1 e2 j db).finalOutcome = true →
      (runJob mode e0 e1 e2 j db).attemptsUsed = 3 ∧
      (runJob mode e0 e1 e2 j db).deliveries = [fallbackPayload j] ∧
      (runJob mode e0 e1 e2 j db).db.scripts = db.scripts) := by
  have hif0 : (if (2 : Nat) ≤ 0 then [fallbackPayload j] else []) = [] := rfl
  have hif1 : (if (2 : Nat) ≤ 1 then [fallbackPayload j] else []) = [] := rfl
  have hif2 : (if (2 : Nat) ≤ 2 then [fallbackPayload j] else []) = [fallbackPayload j] := rfl
  simp only [runJob]
  cases h0 : (processJob mode e0 0 j db).outcome with
  | ok res =>
      dsimp only
      constructor
      · exact (processJob_ok_strong mode e0 0 j db (by rw [h0]; rfl)).1
      · intro habs
        exact absurd habs (by simp [outcomeIsError])
  | error err0 =>
      have s0 := processJob_error_spec mode e0 0 j db (by rw [h0]; rfl)
      dsimp only
      cases h1 : (processJob mode e1 1 j (processJob mode e0 0 j db).db).outcome with
      | ok res =>
          dsimp only
          constructor
          · rw [s0.1, hif0, List.nil_append]
            exact (processJob_ok_strong mode e1 1 j _ (by rw [h1]; rfl)).1
          · intro habs
            exact absurd habs (by simp [outcomeIsError])
      | error err1 =>
          have s1 := processJob_error_spec mode e1 1 j _ (by rw [h1]; rfl)
          dsimp only
          cases h2 : (processJob mode e2 2 j
              (processJob mode e1 1 j (processJob mode e0 0 j db).db).db).outcome with
          | ok res =>
              constructor
              · rw [s0.1, hif0, s1.1, hif1, List.nil_append, List.nil_append]
                exact (processJob_ok_strong mode e2 2 j _ (by rw [h2]; rfl)).1
              · intro habs
                exact absurd habs (by simp [outcomeIsError])
          | error err2 =>
              have s2 := processJob_error_spec mode e2 2 j _ (by rw [h2]; rfl)
              constructor
              · rw [s0.1, hif0, s1.1, hif1, s2.1, hif2, List.nil_append, List.nil_append]
                rfl
              · intro _
                refine ⟨rfl, ?_, ?_⟩
                · rw [s0.1, hif0, s1.1, hif1, s2.1, hif2, List.nil_append, List.nil_append]
                · rw [s2.2, s1.2, s0.2]

/-- C2 witness: a fully successful run delivers exactly once; a run whose
three attempts all fail on acquisition delivers exactly the fallback. -/
theorem runJob_guaranteed_delivery_witness :
    (runJob ("hybrid") happyEnv happyEnv happyEnv job0 dbEmpty).deliveries.length = 1 ∧
    (runJob ("hybrid") acqFailEnv acqFailEnv acqFailEnv job0 dbEmpty).deliveries
      = [fallbackPayload job0] :=
  ⟨(runJob_guaranteed_delivery ("hybrid") happyEnv happyEnv happyEnv job0 dbEmpty).1,
   ((runJob_guaranteed_delivery ("hybrid") acqFailEnv acqFailEnv acqFailEnv job0 dbEmpty).2
      (by decide)).2.1⟩

/-- On a cache miss, a thrown acquisition error aborts the phase before
any analysis call. -/
theorem acquireAndAnalyze_download_error (mode : String) (env : PipelineEnv) (j : QueueItem)
    (db : Db) (e : PipelineErr)
    (hmiss : db.reelDNA.find? (fun r => r.reelUrlHash == generateReelHash j.reelUrl) = none)
    (hdl : env.download = Except.error e) :
    acquireAndAnalyze mode env j db =
      ({ downloadCalled := true, analyzeCalls := [], usedTier1Cache := false },
       Except.error e) := by
  simp only [acquireAndAnalyze]
  rw [hmiss, hdl]

/-- C3 counterexample: a bound-violation acquisition failure (Video too
long) on the first attempt is NOT terminal: no fallback is delivered on
that attempt, the job is retried, the failed attempt consumed one unit of
the retry budget, and a succeeding second attempt completes the job with
the full (non-fallback) result — contradicting the claim that bound
violations skip retry and route directly to the fallback branch. -/
theorem bound_violation_is_retried :
    (processJob ("hybrid") acqFailEnv 0 job0 dbEmpty).deliveries = [] ∧
    outcomeIsError (processJob ("hybrid") acqFailEnv 0 job0 dbEmpty).outcome = true ∧
    (runJob ("hybrid") acqFailEnv happyEnv happyEnv job0 dbEmpty).attemptsUsed = 2 ∧
    outcomeIsError (runJob ("hybrid") acqFailEnv happyEnv happyEnv job0 dbEmpty).finalOutcome
      = false ∧
    ((runJob ("hybrid") acqFailEnv happyEnv happyEnv job0 dbEmpty).deliveries.map
        (fun p => p.field_name)) = [("script_image_url")] := by
  refine ⟨by decide, rfl, rfl, rfl, by decide⟩

/-- C3 amended: a media-acquisition failure from a bound violation is
treated like any other thrown error: the worker marks the attempt failed
and rethrows it so the queue retries the job (consuming retry budget), no
fallback is delivered before the final attempt, and the fallback branch
runs only on the final attempt (attemptsMade greater or equal 2). -/
theorem acquisition_bound_violation_retry (mode : String) (env : PipelineEnv)
    (j : QueueItem) (db : Db) (msg : String)
    (hmiss : db.reelDNA.find? (fun r => r.reelUrlHash == generateReelHash j.reelUrl) = none)
    (hdl : env.download = Except.error (PipelineErr.acquisition msg)) :
    ((processJob mode env 0 j db).outcome = Except.error (PipelineErr.acquisition msg) ∧
     (processJob mode env 0 j db).deliveries = []) ∧
    ((processJob mode env 2 j db).outcome = Except.error (PipelineErr.acquisition msg) ∧
     (processJob mode env 2 j db).deliveries = [fallbackPayload j]) := by
  have key : ∀ am : Nat, processJob mode env am j db =
      jobFailPath env am j (updateJob db j.requestId (markProcessing am))
        { downloadCalled := true, analyzeCalls := [], usedTier1Cache := false }
        (PipelineErr.acquisition msg) := by
    intro am
    simp only [processJob]
    rw [acquireAndAnalyze_download_error mode env j
        (updateJob db j.requestId (markProcessing am)) (PipelineErr.acquisition msg) hmiss hdl]
  refine ⟨⟨?_, ?_⟩, ⟨?_, ?_⟩⟩ <;> rw [key] <;> simp [jobFailPath_spec]

/-- C3 witness: the amended behavior evaluated at the concrete
bound-violation environment: the first attempt rethrows with no fallback,
the final attempt rethrows after delivering the fallback. -/
theorem acquisition_bound_violation_retry_witness :
    ((processJob ("hybrid") acqFailEnv 0 job0 dbEmpty).outcome
        = Except.error (PipelineErr.acquisition ("Video too long")) ∧
     (processJob ("hybrid") acqFailEnv 0 job0 dbEmpty).deliveries = []) ∧
    ((processJob ("hybrid") acqFailEnv 2 job0 dbEmpty).outcome
        = Except.error (PipelineErr.acquisition ("Video too long")) ∧
     (processJob ("hybrid") acqFailEnv 2 job0 dbEmpty).deliveries = [fallbackPayload job0]) :=
  acquisition_bound_violation_retry ("hybrid") acqFailEnv job0 dbEmpty ("Video too long")
    (by decide) rfl

/-- C5: delivery failure never fails the Job.  `sendToManyChat` returns
normally for every environment and payload (its outer catch logs and
swallows every error), and an attempt that succeeds while every
notification HTTP call fails still has its artifact resolvable by
fingerprint and its Job rows marked completed. -/
theorem delivery_failure_never_fails_job (env : ManyChatEnv) (p : ManyChatPayload)
    (mode : String) (penv : PipelineEnv) (am : Nat) (j : QueueItem) (db : Db)
    (hset : penv.manychat.setFieldOk = false) (himg : penv.manychat.sendImageOk = false)
    (hlink : penv.manychat.sendLinkOk = false)
    (hok : outcomeIsError (processJob mode penv am j db).outcome = false) :
    (sendToManyChat env p).fst = Except.ok () ∧
    (findScriptByHash (processJob mode penv am j db).db j.requestHash).isSome = true ∧
    (∀ row, row ∈ (processJob mode penv am j db).db.jobs → row.jobId = j.requestId →
       row.status = JobStatus.completed) := by
  have hs := processJob_ok_strong mode penv am j db hok
  exact ⟨sendToManyChat_ok env p, hs.2.1, hs.2.2⟩

/-- C5 witness: a pipeline environment whose every notification call
fails, run over a store holding the fixture job: the dispatcher returns
normally and the artifact is persisted for the fingerprint. -/
theorem delivery_failure_never_fails_job_witness :
    (sendToManyChat mcAllFail (fallbackPayload job0)).fst = Except.ok () ∧
    (findScriptByHash
        (processJob ("hybrid") { happyEnv with manychat := mcAllFail } 0 job0 dbWithJob).db
        job0.requestHash).isSome = true :=
  ⟨(delivery_failure_never_fails_job mcAllFail (fallbackPayload job0) ("hybrid")
      { happyEnv with manychat := mcAllFail } 0 job0 dbWithJob rfl rfl rfl (by decide)).1,
   (delivery_failure_never_fails_job mcAllFail (fallbackPayload job0) ("hybrid")
      { happyEnv with manychat := mcAllFail } 0 job0 dbWithJob rfl rfl rfl (by decide)).2.1⟩

/-- With no racing writer and a fresh key, the cache store creates the
entry. -/
theorem storeReelDNA_fresh (env : PipelineEnv) (url : String) (db : Db) (va : VideoAnalysis)
    (hrace : env.raceDNA = none)
    (hmiss : db.reelDNA.find? (fun r => r.reelUrlHash == generateReelHash url) = none) :
    storeReelDNA env url db va =
      { db with reelDNA := db.reelDNA ++
          [{ reelUrlHash := generateReelHash url, reelUrl := url, analysis := va }] } := by
  have hany : (db.reelDNA.any (fun r => r.reelUrlHash == generateReelHash url)) = false := by
    rw [List.any_eq_false]
    intro x hx
    exact List.find?_eq_none.mp hmiss x hx
  simp [storeReelDNA, hrace, hany]

/-- A racing writer that already committed the key makes the create a
duplicate-key error, which is swallowed: the racing entry stands and no
error escapes. -/
theorem storeReelDNA_race_swallowed (env : PipelineEnv) (url : String) (db : Db)
    (va : VideoAnalysis) (raceRow : ReelDNARow)
    (hrace : env.raceDNA = some raceRow)
    (hkey : raceRow.reelUrlHash = generateReelHash url) :
    storeReelDNA env url db va = { db with reelDNA := db.reelDNA ++ [raceRow] } := by
  have hany : ((db.reelDNA ++ [raceRow]).any
      (fun r => r.reelUrlHash == generateReelHash url)) = true := by
    rw [List.any_append]
    simp [hkey]
  simp [storeReelDNA, hrace, hany]

/-- On a cache miss in hybrid mode with frames extracted, the phase runs
download, one analysis call over the frames (audio attached when it was
extracted), and the cache store. -/
theorem acquireAndAnalyze_hybrid_frames (env : PipelineEnv) (j : QueueItem) (db : Db)
    (vp : String) (va : VideoAnalysis)
    (hmiss : db.reelDNA.find? (fun r => r.reelUrlHash == generateReelHash j.reelUrl) = none)
    (hdl : env.download = Except.ok vp) (hfr : 0 < env.frames.length)
    (hana : env.analyze = Except.ok va) :
    acquireAndAnalyze ("hybrid") env j db =
      ({ downloadCalled := true,
         analyzeCalls := [{ frames := env.frames, audioPath := env.audio,
                            includeAudio := env.audio.isSome }],
         usedTier1Cache := false },
       Except.ok { db := storeReelDNA env j.reelUrl db va, analysis := va,
                   transcript := va.transcript, frames := env.frames }) := by
  have hne : env.frames.isEmpty = false := by
    cases hf : env.frames
    · rw [hf] at hfr; simp at hfr
    · rfl
  simp only [acquireAndAnalyze]
  rw [hmiss, hdl]
  simp [analyzeVideo, hne, hana, hfr]

/-- C4: the Tier-1 analysis cache is keyed solely by a hash of the source
reference: the probe outcome is identical for jobs sharing a source URL
regardless of requester and idea; on a hit the worker skips download,
extraction and analysis and reuses the stored payload; on a miss a
successful analysis stores the entry create-if-absent, and a racing
duplicate-key write (driver error 11000) is swallowed — the phase still
returns the analysis instead of surfacing an error. -/
theorem tier1_cache_semantics (mode : String) (env : PipelineEnv) (db : Db)
    (j1 j2 : QueueItem) (vp : String) (va : VideoAnalysis) (row : ReelDNARow)
    (raceRow : ReelDNARow) (hurl : j1.reelUrl = j2.reelUrl) :
    (acquireAndAnalyze mode env j1 db).fst.usedTier1Cache
        = (acquireAndAnalyze mode env j2 db).fst.usedTier1Cache ∧
    (db.reelDNA.find? (fun r => r.reelUrlHash == generateReelHash j1.reelUrl) = some row →
      acquireAndAnalyze mode env j1 db =
        ({ downloadCalled := false, analyzeCalls := [], usedTier1Cache := true },
         Except.ok { db := db, analysis := row.analysis,
                     transcript := row.analysis.transcript, frames := [] })) ∧
    (db.reelDNA.find? (fun r => r.reelUrlHash == generateReelHash j1.reelUrl) = none →
     env.download = Except.ok vp → 0 < env.frames.length → env.analyze = Except.ok va →
     env.raceDNA = none →
      (acquireAndAnalyze ("hybrid") env j1 db).snd =
        Except.ok { db := { db with reelDNA := db.reelDNA ++
                      [{ reelUrlHash := generateReelHash j1.reelUrl, reelUrl := j1.reelUrl,
                         analysis := va }] },
                    analysis := va, transcript := va.transcript, frames := env.frames }) ∧
    (db.reelDNA.find? (fun r => r.reelUrlHash == generateReelHash j1.reelUrl) = none →
     env.download = Except.ok vp → 0 < env.frames.length → env.analyze = Except.ok va →
     env.raceDNA = some raceRow → raceRow.reelUrlHash = generateReelHash j1.reelUrl →
      (acquireAndAnalyze ("hybrid") env j1 db).snd =
        Except.ok { db := { db with reelDNA := db.reelDNA ++ [raceRow] },
                    analysis := va, transcript := va.transcript, frames := env.frames }) := by
  refine ⟨?_, ?_, ?_, ?_⟩
  · simp only [acquireAndAnalyze, hurl]
  · intro hhit
    simp only [acquireAndAnalyze]
    rw [hhit]
  · intro hmiss hdl hfr hana hrace
    rw [acquireAndAnalyze_hybrid_frames env j1 db vp va hmiss hdl hfr hana]
    rw [storeReelDNA_fresh env j1.reelUrl db va hrace hmiss]
  · intro hmiss hdl hfr hana hrace hkey
    rw [acquireAndAnalyze_hybrid_frames env j1 db vp va hmiss hdl hfr hana]
    rw [storeReelDNA_race_swallowed env j1.reelUrl db va raceRow hrace hkey]

/-- C4 witness: the cache behavior evaluated concretely — a hit for a
second requester with a different idea on the same source skips the
expensive phase; a miss with a concurrent duplicate writer still returns
the analysis. -/
theorem tier1_cache_semantics_witness :
    acquireAndAnalyze ("hybrid") happyEnv
        { requestId := ("job-2"), requestHash := ("other"), subscriberId := ("u2"),
          reelUrl := ("https://instagram.com/reel/abc"), userIdea := ("another idea") }
        { scripts := [], jobs := [],
          reelDNA := [{ reelUrlHash := generateReelHash ("https://instagram.com/reel/abc"),
                        reelUrl := ("https://instagram.com/reel/abc"), analysis := va0 }] } =
      ({ downloadCalled := false, analyzeCalls := [], usedTier1Cache := true },
       Except.ok { db := { scripts := [], jobs := [],
                           reelDNA := [{ reelUrlHash :=
                                           generateReelHash ("https://instagram.com/reel/abc"),
                                         reelUrl := ("https://instagram.com/reel/abc"),
                                         analysis := va0 }] },
                   analysis := va0, transcript := va0.transcript, frames := [] }) ∧
    (acquireAndAnalyze ("hybrid")
        { happyEnv with raceDNA := some { reelUrlHash := generateReelHash job0.reelUrl,
                                          reelUrl := job0.reelUrl, analysis := va0 } }
        job0 dbEmpty).snd =
      Except.ok { db := { dbEmpty with reelDNA := dbEmpty.reelDNA ++
                            [{ reelUrlHash := generateReelHash job0.reelUrl,
                               reelUrl := job0.reelUrl, analysis := va0 }] },
                  analysis := va0, transcript := va0.transcript, frames := happyEnv.frames } :=
  ⟨(tier1_cache_semantics ("hybrid") happyEnv
      { scripts := [], jobs := [],
        reelDNA := [{ reelUrlHash := generateReelHash ("https://instagram.com/reel/abc"),
                      reelUrl := ("https://instagram.com/reel/abc"), analysis := va0 }] }
      { requestId := ("job-2"), requestHash := ("other"), subscriberId := ("u2"),
        reelUrl := ("https://instagram.com/reel/abc"), userIdea := ("another idea") }
      job0 ("/tmp/v.mp4") va0
      { reelUrlHash := generateReelHash ("https://instagram.com/reel/abc"),
        reelUrl := ("https://instagram.com/reel/abc"), analysis := va0 }
      { reelUrlHash := generateReelHash ("https://instagram.com/reel/abc"),
        reelUrl := ("https://instagram.com/reel/abc"), analysis := va0 }
      rfl).2.1 (by decide),
   (tier1_cache_semantics ("hybrid")
      { happyEnv with raceDNA := some { reelUrlHash := generateReelHash job0.reelUrl,
                                        reelUrl := job0.reelUrl, analysis := va0 } }
      dbEmpty job0 job0 ("/tmp/v.mp4") va0
      { reelUrlHash := generateReelHash job0.reelUrl, reelUrl := job0.reelUrl, analysis := va0 }
      { reelUrlHash := generateReelHash job0.reelUrl, reelUrl := job0.reelUrl, analysis := va0 }
      rfl).2.2.2 (by decide) rfl (by decide) rfl rfl rfl⟩

/-- On a cache miss in hybrid mode with no frames extracted, the phase
falls back to audio-only analysis, re-extracting audio if needed. -/
theorem acquireAndAnalyze_hybrid_audio_only (env : PipelineEnv) (j : QueueItem) (db : Db)
    (vp : String) (va : VideoAnalysis) (a : String)
    (hmiss : db.reelDNA.find? (fun r => r.reelUrlHash == generateReelHash j.reelUrl) = none)
    (hdl : env.download = Except.ok vp) (hfr0 : env.frames = [])
    (haud : env.audio = none) (hret : env.audioRetry = some a)
    (hana : env.analyze = Except.ok va) :
    acquireAndAnalyze ("hybrid") env j db =
      ({ downloadCalled := true,
         analyzeCalls := [{ frames := [], audioPath := some a, includeAudio := true }],
         usedTier1Cache := false },
       Except.ok { db := storeReelDNA env j.reelUrl db va, analysis := va,
                   transcript := va.transcript, frames := [] }) := by
  simp only [acquireAndAnalyze]
  rw [hmiss, hdl]
  simp [hfr0, haud, hret, analyzeVideo, hana]

/-- On a cache miss in hybrid mode with no frames and no audio at all,
the analysis step rejects with the no-input error. -/
theorem acquireAndAnalyze_no_media (env : PipelineEnv) (j : QueueItem) (db : Db)
    (vp : String)
    (hmiss : db.reelDNA.find? (fun r => r.reelUrlHash == generateReelHash j.reelUrl) = none)
    (hdl : env.download = Except.ok vp) (hfr0 : env.frames = [])
    (haud : env.audio = none) (hret : env.audioRetry = none) :
    (acquireAndAnalyze ("hybrid") env j db).snd = Except.error PipelineErr.noAnalysisInput := by
  simp only [acquireAndAnalyze]
  rw [hmiss, hdl]
  simp [hfr0, haud, hret, analyzeVideo]

/-- C6 counterexample: when frame extraction yields no frames and both
audio extraction calls resolve null, the attempt does NOT proceed with an
empty analysis: `analyzeVideo` rejects with the no-input error, the job is
marked failed and the error is rethrown, contradicting the claim that the
job still proceeds when both audio and frames are unavailable. -/
theorem total_extraction_failure_aborts :
    (processJob ("hybrid") noMediaEnv 0 job0 dbWithJob).outcome
        = Except.error PipelineErr.noAnalysisInput ∧
    ((processJob ("hybrid") noMediaEnv 0 job0 dbWithJob).db.jobs.map (fun r => r.status))
        = [JobStatus.failed] ∧
    (processJob ("hybrid") noMediaEnv 0 job0 dbWithJob).deliveries = [] := by
  refine ⟨rfl, by decide, by decide⟩

/-- C6 amended: in the hybrid extraction step, partial failure is
tolerated — missing audio leads to a frames-only analysis call (no audio
part, includeAudio false); no frames leads to an audio-only analysis call
after re-extracting audio — but when frames and both audio extractions
are all unavailable, the analysis step rejects with the no-input error
and the attempt fails into the retry/fallback policy rather than
proceeding with an empty analysis. -/
theorem extraction_degradation (env : PipelineEnv) (j : QueueItem) (db : Db)
    (vp : String) (va : VideoAnalysis) (a : String)
    (hmiss : db.reelDNA.find? (fun r => r.reelUrlHash == generateReelHash j.reelUrl) = none)
    (hdl : env.download = Except.ok vp) :
    (env.audio = none → 0 < env.frames.length → env.analyze = Except.ok va →
      acquireAndAnalyze ("hybrid") env j db =
        ({ downloadCalled := true,
           analyzeCalls := [{ frames := env.frames, audioPath := none, includeAudio := false }],
           usedTier1Cache := false },
         Except.ok { db := storeReelDNA env j.reelUrl db va, analysis := va,
                     transcript := va.transcript, frames := env.frames })) ∧
    (env.frames = [] → env.audio = none → env.audioRetry = some a →
     env.analyze = Except.ok va →
      acquireAndAnalyze ("hybrid") env j db =
        ({ downloadCalled := true,
           analyzeCalls := [{ frames := [], audioPath := some a, includeAudio := true }],
           usedTier1Cache := false },
         Except.ok { db := storeReelDNA env j.reelUrl db va, analysis := va,
                     transcript := va.transcript, frames := [] })) ∧
    (env.frames = [] → env.audio = none → env.audioRetry = none →
      (acquireAndAnalyze ("hybrid") env j db).snd = Except.error PipelineErr.noAnalysisInput ∧
      (processJob ("hybrid") env 0 j db).outcome = Except.error PipelineErr.noAnalysisInput) := by
  refine ⟨?_, ?_, ?_⟩
  · intro haud hfr hana
    rw [acquireAndAnalyze_hybrid_frames env j db vp va hmiss hdl hfr hana, haud]
    rfl
  · intro hfr0 haud hret hana
    exact acquireAndAnalyze_hybrid_audio_only env j db vp va a hmiss hdl hfr0 haud hret hana
  · intro hfr0 haud hret
    have hnm : (acquireAndAnalyze ("hybrid") env j
        (updateJob db j.requestId (markProcessing 0))).snd
          = Except.error PipelineErr.noAnalysisInput :=
      acquireAndAnalyze_no_media env j (updateJob db j.requestId (markProcessing 0)) vp
        hmiss hdl hfr0 haud hret
    refine ⟨acquireAndAnalyze_no_media env j db vp hmiss hdl hfr0 haud hret, ?_⟩
    simp only [processJob]
    rw [hnm]
    simp [jobFailPath_spec]

/-- C6 witness: the degradation branches evaluated concretely — a silent
video analyzed from frames alone, and the no-media case aborting the
attempt with the no-input error. -/
theorem extraction_degradation_witness :
    acquireAndAnalyze ("hybrid") { happyEnv with audio := none } job0 dbEmpty =
      ({ downloadCalled := true,
         analyzeCalls := [{ frames := happyEnv.frames, audioPath := none,
                            includeAudio := false }],
         usedTier1Cache := false },
       Except.ok { db := storeReelDNA { happyEnv with audio := none } job0.reelUrl dbEmpty va0,
                   analysis := va0, transcript := va0.transcript,
                   frames := happyEnv.frames }) ∧
    (processJob ("hybrid") noMediaEnv 0 job0 dbEmpty).outcome
        = Except.error PipelineErr.noAnalysisInput :=
  ⟨(extraction_degradation { happyEnv with audio := none } job0 dbEmpty ("/tmp/v.mp4") va0
      ("unused.wav") (by decide) rfl).1 rfl (by decide) rfl,
   ((extraction_degradation noMediaEnv job0 dbEmpty ("/tmp/v.mp4") va0 ("unused.wav")
      (by decide) rfl).2.2 rfl rfl rfl).2⟩

/-- The upsert never changes the multiset of fingerprints except by adding
a fresh one: pairwise-distinct fingerprints stay pairwise distinct. -/
theorem upsertScript_pairwise (db : Db) (row : ScriptRow)
    (h : db.scripts.Pairwise (fun x y => x.requestHash ≠ y.requestHash)) :
    (upsertScript db row).scripts.Pairwise (fun x y => x.requestHash ≠ y.requestHash) := by
  unfold upsertScript
  by_cases hp : (findScriptByHash db row.requestHash).isSome = true
  · simp only [hp, if_true]
    have hkey : ∀ s : ScriptRow,
        ((if s.requestHash == row.requestHash then row else s).requestHash) = s.requestHash := by
      intro s
      by_cases hs : (s.requestHash == row.requestHash) = true
      · simp only [hs, if_true]
        exact (beq_iff_eq.mp hs).symm
      · simp [hs]
    refine List.Pairwise.map _ ?_ h
    intro a b hab
    show (if a.requestHash == row.requestHash then row else a).requestHash ≠
         (if b.requestHash == row.requestHash then row else b).requestHash
    rw [hkey a, hkey b]
    exact hab
  · simp only [hp, Bool.false_eq_true, if_false]
    rw [List.pairwise_append]
    refine ⟨h, by simp, ?_⟩
    intro a ha b hb
    simp only [List.mem_singleton] at hb
    rw [hb]
    have hn : db.scripts.find? (fun s => s.requestHash == row.requestHash) = none := by
      unfold findScriptByHash at hp
      cases hfind : db.scripts.find? (fun s => s.requestHash == row.requestHash)
      · rfl
      · rw [hfind] at hp; simp at hp
    have := List.find?_eq_none.mp hn a ha
    simpa using this

/-- The scripts written by the upsert depend only on the Script collection
of the input. -/
theorem upsertScript_scripts_congr (d1 d2 : Db) (row : ScriptRow)
    (h : d1.scripts = d2.scripts) :
    (upsertScript d1 row).scripts = (upsertScript d2 row).scripts := by
  unfold upsertScript findScriptByHash
  rw [h]
  by_cases hc : ((d2.scripts.find? fun s => s.requestHash == row.requestHash).isSome) = true
  · simp [hc]
  · simp [hc]

/-- A successful attempt rewrites the Script collection exactly as the
upsert of one row over the pre-attempt collection. -/
theorem processJob_ok_scripts (mode : String) (env : PipelineEnv) (am : Nat)
    (j : QueueItem) (db : Db)
    (h : outcomeIsError (processJob mode env am j db).outcome = false) :
    ∃ row, (processJob mode env am j db).db.scripts = (upsertScript db row).scripts := by
  simp only [processJob] at h ⊢
  cases hA : (acquireAndAnalyze mode env j (updateJob db j.requestId (markProcessing am))).snd with
  | error e =>
      rw [hA] at h
      simp [jobFailPath_spec, outcomeIsError] at h
  | ok core =>
      rw [hA] at h
      dsimp only at h ⊢
      cases hF : finishJob env j core.db with
      | error e =>
          rw [hF] at h
          simp [jobFailPath_spec, outcomeIsError] at h
      | ok fin =>
          rw [hF] at h
          dsimp only at h ⊢
          rw [sendToManyChat_ok env.manychat fin.payload] at h ⊢
          refine ⟨fin.row, ?_⟩
          obtain ⟨hdb, _, _⟩ := finishJob_spec env j core.db fin hF
          have hsc : core.db.scripts = db.scripts :=
            acquireAndAnalyze_scripts mode env j
              (updateJob db j.requestId (markProcessing am)) core hA
          show (updateJob fin.db j.requestId markCompleted).scripts
              = (upsertScript db fin.row).scripts
          rw [updateJob_scripts, hdb]
          exact upsertScript_scripts_congr core.db db fin.row hsc

/-- C7 counterexample: re-processing a fingerprint that already has a
Script row DOES change that row's publicId: the worker's upsert overwrites
the stored row with a freshly allocated id (here the all-zero draw encodes
to AAAAAAAA, replacing the stored id existing0), contradicting the claim
that the publicId is immutable under re-processing. -/
theorem reprocessing_changes_publicId :
    findScriptByHash dbWithScript job0.requestHash = some scriptRow0 ∧
    scriptRow0.publicId = ("existing0") ∧
    ((findScriptByHash (processJob ("hybrid") happyEnv 0 job0 dbWithScript).db
        job0.requestHash).map (fun r => r.publicId)) = some ("AAAAAAAA") ∧
    (("AAAAAAAA") : String) ≠ ("existing0") := by
  refine ⟨by decide, rfl, by decide, by decide⟩

/-- C7 amended: every fingerprint maps to at most one Script row (the
upsert keyed by requestHash preserves pairwise-distinct fingerprints
across any worker attempt), and the allocator returns an id unused in the
store whenever one of its three checked draws is fresh (the 12-character
post-collision fallback is issued unchecked); but a Script row is NOT
immutable under re-processing: a successful generation tail persists, for
the job fingerprint, a row bearing the freshly allocated publicId,
overwriting any previously stored id for that fingerprint. -/
theorem script_row_identity (mode : String) (env : PipelineEnv) (am : Nat)
    (j : QueueItem) (db : Db) (e : Entropy) (fin : FinishData)
    (huniq : db.scripts.Pairwise (fun x y => x.requestHash ≠ y.requestHash)) :
    (processJob mode env am j db).db.scripts.Pairwise
        (fun x y => x.requestHash ≠ y.requestHash) ∧
    (((findScriptByPublicId db (generatePublicId e.draw0)).isNone = true ∨
      (findScriptByPublicId db (generatePublicId e.draw1)).isNone = true ∨
      (findScriptByPublicId db (generatePublicId e.draw2)).isNone = true) →
      (findScriptByPublicId db (generateUniquePublicId db e)).isNone = true) ∧
    (finishJob env j db = Except.ok fin →
      fin.row.publicId = generateUniquePublicId db env.entropy ∧
      findScriptByHash fin.db j.requestHash = some fin.row) := by
  refine ⟨?_, ?_, ?_⟩
  · cases ho : outcomeIsError (processJob mode env am j db).outcome with
    | false =>
        obtain ⟨row, hrow⟩ := processJob_ok_scripts mode env am j db ho
        rw [hrow]
        exact upsertScript_pairwise db row huniq
    | true =>
        rw [(processJob_error_spec mode env am j db ho).2]
        exact huniq
  · intro h
    unfold generateUniquePublicId
    by_cases c0 : (findScriptByPublicId db (generatePublicId e.draw0)).isNone = true
    · simp [c0]
    · by_cases c1 : (findScriptByPublicId db (generatePublicId e.draw1)).isNone = true
      · simp [c0, c1]
      · by_cases c2 : (findScriptByPublicId db (generatePublicId e.draw2)).isNone = true
        · simp [c0, c1, c2]
        · rcases h with h | h | h
          · exact absurd h c0
          · exact absurd h c1
          · exact absurd h c2
  · intro hF
    obtain ⟨hdb, hhash, hpid⟩ := finishJob_spec env j db fin hF
    refine ⟨hpid, ?_⟩
    rw [hdb, ← hhash]
    exact upsertScript_find db fin.row

/-- C7 witness: the amended behavior evaluated over the store already
holding a Script row for the fixture fingerprint. -/
theorem script_row_identity_witness :
    (processJob ("hybrid") happyEnv 0 job0 dbWithScript).db.scripts.Pairwise
        (fun x y => x.requestHash ≠ y.requestHash) ∧
    (findScriptByPublicId dbWithScript
        (generateUniquePublicId dbWithScript entropy0)).isNone = true :=
  ⟨(script_row_identity ("hybrid") happyEnv 0 job0 dbWithScript entropy0
      { db := dbEmpty, row := scriptRow0, payload := fallbackPayload job0,
        result := { success := true, scriptText := (""), imageUrl := ("") } }
      (by decide)).1,
   (script_row_identity ("hybrid") happyEnv 0 job0 dbWithScript entropy0
      { db := dbEmpty, row := scriptRow0, payload := fallbackPayload job0,
        result := { success := true, scriptText := (""), imageUrl := ("") } }
      (by decide)).2.1 (Or.inl (by decide))⟩
